import Mathlib

/-!
Verification development for the OpenSearch-backed grounded AI search
platform.  The embedding follows the TypeScript source:

* `AgentService.analyze` (src/agent/agent.service.ts) is embedded as a pure
  function over an explicit collaborator environment `AgentEnv`, recording
  the calls made to the LLM provider as a trace.  Collaborators
  (guardrails, search services, redaction, grounding, the provider) are
  injected exactly as in the NestJS constructor, and every awaited
  collaborator call is fallible (`Except`), mirroring thrown exceptions
  caught by the `try/catch` in `analyze`.
* `CircuitBreakerProvider` (src/agent/resilience/circuit-breaker.provider.ts)
  configures an opossum circuit breaker; the opossum state machine itself is
  third-party library code not present in the repository, so its step
  function is modelled from the specification's description of the
  three-state machine, while the option defaults, their merge, and the fixed
  fallback value are taken verbatim from the repository source.
-/

namespace AgentSpec

/-- Confidence enum of `LLMAnalysisResult` / `Insight`
(`'high' | 'medium' | 'low'` in the TypeScript interfaces). -/
inductive Confidence where
  | high
  | medium
  | low
deriving DecidableEq, Repr

/-- Result shape of `LLMProvider.analyze`:
`{summary: string, confidence, reasoning?: string}`. -/
structure LLMAnalysisResult where
  summary : String
  confidence : Confidence
  reasoning : Option String
deriving DecidableEq, Repr

/-- `PreProcessResult` produced by `GuardrailsService.preProcess`:
`allowed: boolean`, optional `sanitizedQuestion`, optional `error`. -/
structure PreProcessResult where
  allowed : Bool
  sanitizedQuestion : Option String
  error : Option String
deriving DecidableEq, Repr

/-- `PostProcessResult` produced by `GuardrailsService.postProcess`:
`valid: boolean` and a `response` that the service reads with a non-null
assertion (`postResult.response!`), hence modelled as an `Option`. -/
structure PostProcessResult where
  valid : Bool
  response : Option LLMAnalysisResult
deriving DecidableEq, Repr

/-- `GroundingResult` of `GroundingService.check`; the score (a JS float in
[0,1]) is represented as a rational number, it is only logged. -/
structure GroundingResult where
  grounded : Bool
  score : Rat
  reason : Option String
deriving DecidableEq, Repr

/-- `dataPoints` field of `Insight`. -/
structure DataPoints where
  membersAnalyzed : Nat
  locationsAnalyzed : Nat
deriving DecidableEq, Repr

/-- The `Insight` returned by `AgentService.analyze`. -/
structure Insight where
  question : String
  summary : String
  confidence : Confidence
  reasoning : Option String
  dataPoints : DataPoints
  generatedAt : String
  provider : String
deriving DecidableEq, Repr

/-- `AnalyzeRequest` (agent.service.ts): `question: string`,
`locationId?: string`, `limit?: number`. -/
structure AnalyzeRequest where
  question : String
  locationId : Option String
  limit : Option Nat
deriving DecidableEq, Repr

/-- The part of `AuthenticatedUser` read by `AgentService.analyze`
(`user.userId`); the rest is only forwarded to the search collaborators. -/
structure AuthenticatedUser where
  userId : String
deriving DecidableEq, Repr

/-- A membership record as used by `AgentService`: records are `unknown[]`;
`summarizeMembers` reads only `status_notes`, and `JSON.stringify` of the
whole record is kept abstract as the `json` field. -/
structure Member where
  status_notes : Option String
  json : String
deriving DecidableEq, Repr

/-- A location record as used by `AgentService`: `summarizeLocations` reads
only `region`; `json` stands for `JSON.stringify` of the record. -/
structure Location where
  region : Option String
  json : String
deriving DecidableEq, Repr

/-- JavaScript `a || b` on an optional number: `undefined` and `0` are both
falsy, so they fall back to the default (`request.limit || 100`). -/
def jsNumOr (v : Option Nat) (d : Nat) : Nat :=
  match v with
  | none => d
  | some n => if n = 0 then d else n

/-- `member.status_notes?.split(' ')[0] || 'unknown'`: optional chaining
yields `undefined` (falsy) for a missing field, and an empty first chunk is
falsy as well. -/
def statusKey (m : Member) : String :=
  match m.status_notes with
  | none => "unknown"
  | some s =>
    let first := (s.splitOn " ").headD ""
    if first = "" then "unknown" else first

/-- `loc.region || 'unknown'`: missing or empty region is falsy. -/
def regionKey (l : Location) : String :=
  match l.region with
  | none => "unknown"
  | some r => if r = "" then "unknown" else r

/-- One step of building the JS object `byStatus[k] = (byStatus[k] || 0) + 1`;
JS objects preserve first-insertion key order, modelled by an association
list. -/
def bumpCount (acc : List (String × Nat)) (k : String) : List (String × Nat) :=
  if acc.any (fun p => p.1 = k) then
    acc.map (fun p => if p.1 = k then (p.1, p.2 + 1) else p)
  else
    acc ++ [(k, 1)]

/-- `JSON.stringify` of the counting object, in insertion order. -/
def jsonOfCounts (l : List (String × Nat)) : String :=
  "\x7b" ++ String.intercalate "," (l.map (fun p => "\"" ++ p.1 ++ "\":" ++ toString p.2)) ++ "\x7d"

/-- `JSON.stringify` of an array of member records (element serializations
are the abstract `json` fields). -/
def jsonOfMembers (ms : List Member) : String :=
  "[" ++ String.intercalate "," (ms.map (fun m => m.json)) ++ "]"

/-- `JSON.stringify` of an array of location records. -/
def jsonOfLocations (ls : List Location) : String :=
  "[" ++ String.intercalate "," (ls.map (fun l => l.json)) ++ "]"

/-- `AgentService.summarizeMembers`. -/
def summarizeMembers (members : List Member) : String :=
  if members.length = 0 then "No membership records found."
  else
    let byStatus := members.foldl (fun acc m => bumpCount acc (statusKey m)) []
    "Status distribution: " ++ jsonOfCounts byStatus ++
      "\nSample records: " ++ jsonOfMembers (members.take 5)

/-- `AgentService.summarizeLocations`. -/
def summarizeLocations (locations : List Location) : String :=
  if locations.length = 0 then "No location records found."
  else
    let byRegion := locations.foldl (fun acc l => bumpCount acc (regionKey l)) []
    "Region distribution: " ++ jsonOfCounts byRegion ++
      "\nSample records: " ++ jsonOfLocations (locations.take 3)

/-- `AgentService.buildContext`: the template literal, including its leading
and trailing newlines; `request.locationId ? ... : ''` treats the empty
string as falsy. -/
def buildContext (members : List Member) (locations : List Location)
    (request : AnalyzeRequest) : String :=
  "\nMEMBERSHIP DATA (" ++ toString members.length ++ " records):\n" ++
    summarizeMembers members ++
    "\n\nLOCATION DATA (" ++ toString locations.length ++ " records):\n" ++
    summarizeLocations locations ++ "\n\n" ++
    (match request.locationId with
     | none => ""
     | some lid => if lid = "" then "" else "FOCUS: Location ID " ++ lid) ++
    "\n"

/-- Collaborator environment of `AgentService`, mirroring its injected
constructor dependencies.  Every awaited collaborator call may throw, which
is modelled by `Except String`; `providerName` is `llmProvider.getName()`
and `now` stands for `new Date().toISOString()`. -/
structure AgentEnv where
  preProcess : String → String → PreProcessResult
  membershipSearch : Nat → AuthenticatedUser → Except String (List Member)
  locationsSearch : Nat → AuthenticatedUser → Except String (List Location)
  redact : String → Except String String
  llmAnalyze : String → String → Except String LLMAnalysisResult
  groundingCheck : String → String → Except String GroundingResult
  postProcess : LLMAnalysisResult → String → Except String PostProcessResult
  handleError : String → String → LLMAnalysisResult
  providerName : String
  now : String

/-- Value produced by the TypeScript non-null assertion
`postResult.response!` when the field is absent (never reached on the paths
the theorems below consider, which hypothesise a populated field). -/
def undefinedResponse : LLMAnalysisResult :=
  { summary := "", confidence := Confidence.low, reasoning := none }

/-- The body of the `try` block of `AgentService.analyze`, after guardrails
have allowed the request and produced `sq` (the sanitized question).
Returns the outcome of the block (the built `Insight`, or the thrown error)
together with the trace of `llmProvider.analyze` invocations
(question, context).  The two searches run under `Promise.all`; they are
sequenced here, which preserves the error/success outcome shape. -/
def analyzeAllowed (env : AgentEnv) (request : AnalyzeRequest)
    (user : AuthenticatedUser) (sq : String) :
    Except String Insight × List (String × String) :=
  match env.membershipSearch (jsNumOr request.limit 100) user with
  | .error e => (.error e, [])
  | .ok members =>
  match env.locationsSearch (jsNumOr request.limit 50) user with
  | .error e => (.error e, [])
  | .ok locations =>
  let context := buildContext members locations request
  match env.redact context with
  | .error e => (.error e, [])
  | .ok redactedContext =>
  match env.llmAnalyze sq redactedContext with
  | .error e => (.error e, [(sq, redactedContext)])
  | .ok llmResult =>
  match env.groundingCheck redactedContext llmResult.summary with
  | .error e => (.error e, [(sq, redactedContext)])
  | .ok _groundingResult =>
  -- the grounding verdict is only logged / counted; the value is unused
  match env.postProcess llmResult user.userId with
  | .error e => (.error e, [(sq, redactedContext)])
  | .ok postResult =>
  let result := postResult.response.getD undefinedResponse
  (.ok
    { question := request.question
      summary := result.summary
      confidence := result.confidence
      reasoning := result.reasoning
      dataPoints :=
        { membersAnalyzed := members.length
          locationsAnalyzed := locations.length }
      generatedAt := env.now
      provider := env.providerName },
   [(sq, redactedContext)])

/-- `AgentService.analyze`.  On guardrail rejection it throws
`new Error(preResult.error)` (modelled as `.error preResult.error`); any
error thrown inside the `try` block is caught and converted into the
`handleError` fallback `Insight` with zero data points.  The second
component is the trace of LLM-provider invocations. -/
def analyze (env : AgentEnv) (request : AnalyzeRequest)
    (user : AuthenticatedUser) :
    Except (Option String) Insight × List (String × String) :=
  let preResult := env.preProcess request.question user.userId
  if preResult.allowed then
    let sq := preResult.sanitizedQuestion.getD ""
    match analyzeAllowed env request user sq with
    | (.ok insight, calls) => (.ok insight, calls)
    | (.error e, calls) =>
      let fallback := env.handleError e user.userId
      (.ok
        { question := request.question
          summary := fallback.summary
          confidence := fallback.confidence
          reasoning := fallback.reasoning
          dataPoints := { membersAnalyzed := 0, locationsAnalyzed := 0 }
          generatedAt := env.now
          provider := env.providerName },
       calls)
  else
    (.error preResult.error, [])

/-- `CircuitBreakerOptions` (circuit-breaker.provider.ts): four optional
numeric fields. -/
structure CircuitBreakerOptions where
  timeout : Option Nat
  errorThresholdPercentage : Option Nat
  resetTimeout : Option Nat
  volumeThreshold : Option Nat
deriving DecidableEq, Repr

/-- The fully-resolved option set handed to the opossum constructor. -/
structure ResolvedOptions where
  timeout : Nat
  errorThresholdPercentage : Nat
  resetTimeout : Nat
  volumeThreshold : Nat
deriving DecidableEq, Repr

/-- The `defaults` object of the `CircuitBreakerProvider` constructor:
`timeout: 30000, errorThresholdPercentage: 50, resetTimeout: 30000,
volumeThreshold: 3`. -/
def cbDefaults : ResolvedOptions :=
  { timeout := 30000
    errorThresholdPercentage := 50
    resetTimeout := 30000
    volumeThreshold := 3 }

/-- The spread merge `{ ...defaults, ...options }` in the constructor, with
an optional `options` argument: a field supplied in `options` overrides the
default, an absent field keeps it. -/
def resolveOptions (options : Option CircuitBreakerOptions) : ResolvedOptions :=
  match options with
  | none => cbDefaults
  | some o =>
    { timeout := o.timeout.getD cbDefaults.timeout
      errorThresholdPercentage :=
        o.errorThresholdPercentage.getD cbDefaults.errorThresholdPercentage
      resetTimeout := o.resetTimeout.getD cbDefaults.resetTimeout
      volumeThreshold := o.volumeThreshold.getD cbDefaults.volumeThreshold }

/-- Circuit state enumeration (closed / open / half-open); `opened` matches
the `breaker.opened` flag read by `getState`. -/
inductive CBState where
  | closed
  | opened
  | halfOpen
deriving DecidableEq, Repr

/-- Outcome of one attempt of the wrapped provider call: it resolves within
the timeout, rejects, or exceeds the timeout (the two latter both count as
failures for the breaker statistics). -/
inductive ProviderOutcome where
  | completes (r : LLMAnalysisResult)
  | fails
  | timesOut
deriving DecidableEq, Repr

/-- Whether a provider outcome counts as a failure (error responses and
calls exceeding the timeout both do). -/
def isFailure : ProviderOutcome → Bool
  | .completes _ => false
  | .fails => true
  | .timesOut => true

/-- Modelled from the spec: the state kept by the opossum circuit breaker
(third-party library; its implementation is not part of the repository
source).  `windowCalls` / `windowFailures` are the call and failure tallies
of the current rolling statistics window, `openedAt` the time the circuit
last opened. -/
structure BreakerCore where
  state : CBState
  windowCalls : Nat
  windowFailures : Nat
  openedAt : Nat
  opts : ResolvedOptions
deriving DecidableEq, Repr

/-- The breaker built by the `CircuitBreakerProvider` constructor: closed,
with empty statistics and the merged options. -/
def mkBreaker (options : Option CircuitBreakerOptions) : BreakerCore :=
  { state := CBState.closed
    windowCalls := 0
    windowFailures := 0
    openedAt := 0
    opts := resolveOptions options }

/-- Modelled from the spec: the closed-to-open trip condition — over a
rolling window of at least `volumeThreshold` calls, the failure percentage
meets or exceeds `errorThresholdPercentage`
(`failures / calls * 100 ≥ threshold`, stated multiplicatively). -/
def shouldTrip (calls failures : Nat) (o : ResolvedOptions) : Bool :=
  decide (o.volumeThreshold ≤ calls) &&
    decide (o.errorThresholdPercentage * calls ≤ failures * 100)

/-- The fixed fallback registered with `this.breaker.fallback(...)` in
`setupEventHandlers` — taken verbatim from the repository source. -/
def fallbackResult : LLMAnalysisResult :=
  { summary := "Analysis temporarily unavailable. The AI service is experiencing issues and will recover shortly."
    confidence := Confidence.low
    reasoning := some "Circuit breaker active - LLM provider unavailable" }

/-- Result of one `CircuitBreakerProvider.analyze` call
(`breaker.fire(question, context, systemPrompt)`): whether the wrapped
provider was invoked, the value resolved (or the failure propagated), and
the successor breaker state. -/
structure FireOutput where
  providerInvoked : Bool
  result : Except Unit LLMAnalysisResult
  next : BreakerCore
deriving Repr

/-- Modelled from the spec: the timer-driven `open → half-open` transition —
after `resetTimeout` has elapsed since the circuit opened, the breaker moves
to half-open; in every other situation time passing changes nothing. -/
def tick (b : BreakerCore) (now : Nat) : BreakerCore :=
  if b.state = CBState.opened ∧ b.openedAt + b.opts.resetTimeout ≤ now then
    { b with state := CBState.halfOpen }
  else b

/-- Modelled from the spec: one call through the opossum breaker
(`breaker.fire`, reached via `CircuitBreakerProvider.analyze`).
While closed, the call passes through to the wrapped provider and the
window statistics are updated, tripping to open when `shouldTrip` holds;
while open, the wrapped provider is bypassed entirely and the registered
fallback is returned immediately; while half-open, a single trial call is
attempted — success closes the circuit (resetting the statistics), failure
re-opens it. -/
def fire (b : BreakerCore) (now : Nat) (outcome : ProviderOutcome) : FireOutput :=
  match b.state with
  | CBState.opened =>
    { providerInvoked := false
      result := .ok fallbackResult
      next := b }
  | CBState.halfOpen =>
    match outcome with
    | .completes r =>
      { providerInvoked := true
        result := .ok r
        next := { b with state := CBState.closed, windowCalls := 0, windowFailures := 0 } }
    | _ =>
      { providerInvoked := true
        result := .error ()
        next := { b with state := CBState.opened, openedAt := now } }
  | CBState.closed =>
    let calls := b.windowCalls + 1
    let failures := b.windowFailures + (if isFailure outcome then 1 else 0)
    let nextState :=
      if shouldTrip calls failures b.opts then CBState.opened else CBState.closed
    let b' : BreakerCore :=
      { b with
          state := nextState
          windowCalls := calls
          windowFailures := failures
          openedAt := if shouldTrip calls failures b.opts then now else b.openedAt }
    match outcome with
    | .completes r =>
      { providerInvoked := true, result := .ok r, next := b' }
    | _ =>
      { providerInvoked := true, result := .error (), next := b' }

/-- `CircuitBreakerProvider.getState`: half-open wins over open, otherwise
closed. -/
def getState (b : BreakerCore) : String :=
  if b.state = CBState.halfOpen then "half-open"
  else if b.state = CBState.opened then "open"
  else "closed"

/-! ### Theorems about the circuit breaker -/

/-- C2: while the breaker is in the open state, a call to `analyze` (which
delegates to `breaker.fire`) does not invoke the wrapped provider and
resolves with the fixed fallback `LLMAnalysisResult`, whose summary
contains "temporarily unavailable", whose confidence is `low`, and whose
reasoning mentions the circuit breaker — the same shape as a genuine
answer. -/
theorem circuit_open_fast_fallback (b : BreakerCore) (now : Nat)
    (outcome : ProviderOutcome) (h : b.state = CBState.opened) :
    (fire b now outcome).providerInvoked = false ∧
    (fire b now outcome).result = Except.ok fallbackResult ∧
    (∃ pre post, fallbackResult.summary = pre ++ "temporarily unavailable" ++ post) ∧
    fallbackResult.confidence = Confidence.low ∧
    (∃ pre post, fallbackResult.reasoning = some (pre ++ "Circuit breaker" ++ post)) := by
  obtain ⟨st, wc, wf, oa, o⟩ := b
  simp only at h
  subst h
  exact ⟨rfl, rfl,
    ⟨"Analysis ", ". The AI service is experiencing issues and will recover shortly.", rfl⟩,
    rfl, ⟨"", " active - LLM provider unavailable", rfl⟩⟩

/-- Witness for C2 at a concrete open breaker. -/
theorem circuit_open_fast_fallback_witness :
    (fire ⟨CBState.opened, 3, 3, 5, cbDefaults⟩ 10 ProviderOutcome.fails).providerInvoked = false ∧
    (fire ⟨CBState.opened, 3, 3, 5, cbDefaults⟩ 10 ProviderOutcome.fails).result = Except.ok fallbackResult ∧
    (∃ pre post, fallbackResult.summary = pre ++ "temporarily unavailable" ++ post) ∧
    fallbackResult.confidence = Confidence.low ∧
    (∃ pre post, fallbackResult.reasoning = some (pre ++ "Circuit breaker" ++ post)) :=
  circuit_open_fast_fallback ⟨CBState.opened, 3, 3, 5, cbDefaults⟩ 10 ProviderOutcome.fails rfl

/-- C3: the three-state machine satisfies exactly the specified transitions:
from closed, a completed call moves to open precisely when the window has at
least `volumeThreshold` calls and the failure percentage (counting errors
and timeouts) meets or exceeds `errorThresholdPercentage` (otherwise it
stays closed); from open, time alone moves to half-open precisely when
`resetTimeout` has elapsed (calls arriving while open change nothing); from
half-open, a successful trial call closes the circuit and a failed or
timed-out trial call re-opens it. -/
theorem circuit_state_machine (b : BreakerCore) (now : Nat) (r : LLMAnalysisResult) :
    (b.state = CBState.closed →
      ∀ outcome : ProviderOutcome,
        ((fire b now outcome).next.state = CBState.opened ↔
          b.opts.volumeThreshold ≤ b.windowCalls + 1 ∧
          b.opts.errorThresholdPercentage * (b.windowCalls + 1) ≤
            (b.windowFailures + (if isFailure outcome then 1 else 0)) * 100) ∧
        ((fire b now outcome).next.state = CBState.opened ∨
          (fire b now outcome).next.state = CBState.closed)) ∧
    (b.state = CBState.opened →
      ((tick b now).state = CBState.halfOpen ↔ b.openedAt + b.opts.resetTimeout ≤ now) ∧
      (∀ outcome : ProviderOutcome, (fire b now outcome).next = b)) ∧
    (b.state = CBState.halfOpen →
      (fire b now (ProviderOutcome.completes r)).next.state = CBState.closed ∧
      (fire b now ProviderOutcome.fails).next.state = CBState.opened ∧
      (fire b now ProviderOutcome.timesOut).next.state = CBState.opened) := by
  obtain ⟨st, wc, wf, oa, o⟩ := b
  refine ⟨?_, ?_, ?_⟩
  · intro h outcome
    simp only at h
    subst h
    constructor
    · cases outcome <;> simp [fire, shouldTrip]
    · cases outcome <;>
        · simp only [fire]
          split <;> simp_all
  · intro h
    simp only at h
    subst h
    refine ⟨?_, fun outcome => rfl⟩
    constructor
    · intro ht
      by_contra hn
      simp [tick, hn] at ht
    · intro hle
      simp [tick, hle]
  · intro h
    simp only at h
    subst h
    exact ⟨rfl, rfl, rfl⟩

/-- Witness for C3: a closed breaker at the default options trips to open on
its third consecutive failure; an open breaker moves to half-open once
`resetTimeout` has elapsed; a half-open breaker closes on a successful
trial. -/
theorem circuit_state_machine_witness :
    (fire ⟨CBState.closed, 2, 2, 0, cbDefaults⟩ 7 ProviderOutcome.fails).next.state = CBState.opened ∧
    (tick ⟨CBState.opened, 3, 3, 7, cbDefaults⟩ 30007).state = CBState.halfOpen ∧
    (fire ⟨CBState.halfOpen, 3, 3, 7, cbDefaults⟩ 30008
        (ProviderOutcome.completes fallbackResult)).next.state = CBState.closed := by
  refine ⟨?_, ?_, ?_⟩
  · exact (((circuit_state_machine ⟨CBState.closed, 2, 2, 0, cbDefaults⟩ 7 fallbackResult).1
      rfl ProviderOutcome.fails).1).2 (by decide)
  · exact ((circuit_state_machine ⟨CBState.opened, 3, 3, 7, cbDefaults⟩ 30007 fallbackResult).2.1
      rfl).1.2 (by decide)
  · exact ((circuit_state_machine ⟨CBState.halfOpen, 3, 3, 7, cbDefaults⟩ 30008 fallbackResult).2.2
      rfl).1

/-- C8: the circuit-breaker configuration defaults are
`timeout = 30000`, `errorThresholdPercentage = 50`, `resetTimeout = 30000`,
`volumeThreshold = 3`, and each of the four is overridable: for every
options record, a field present in the record takes effect
(`Option.getD (some v) d = v`) and an absent field falls back to its default
(`Option.getD none d = d`); passing no options keeps all defaults. -/
theorem circuit_options_defaults_overridable :
    cbDefaults.timeout = 30000 ∧
    cbDefaults.errorThresholdPercentage = 50 ∧
    cbDefaults.resetTimeout = 30000 ∧
    cbDefaults.volumeThreshold = 3 ∧
    (mkBreaker none).opts = cbDefaults ∧
    ∀ o : CircuitBreakerOptions,
      (mkBreaker (some o)).opts.timeout = o.timeout.getD cbDefaults.timeout ∧
      (mkBreaker (some o)).opts.errorThresholdPercentage =
        o.errorThresholdPercentage.getD cbDefaults.errorThresholdPercentage ∧
      (mkBreaker (some o)).opts.resetTimeout = o.resetTimeout.getD cbDefaults.resetTimeout ∧
      (mkBreaker (some o)).opts.volumeThreshold = o.volumeThreshold.getD cbDefaults.volumeThreshold :=
  ⟨rfl, rfl, rfl, rfl, rfl, fun _ => ⟨rfl, rfl, rfl, rfl⟩⟩

/-! ### Helper lemmas about `analyzeAllowed` (shared by several claims) -/

theorem analyzeAllowed_ok_question (env : AgentEnv) (req : AnalyzeRequest)
    (user : AuthenticatedUser) (sq : String) :
    ∀ i, (analyzeAllowed env req user sq).1 = Except.ok i → i.question = req.question := by
  intro i hi
  unfold analyzeAllowed at hi
  rcases hm : env.membershipSearch (jsNumOr req.limit 100) user with e | members <;>
    rw [hm] at hi <;> dsimp only at hi
  · simp at hi
  rcases hl : env.locationsSearch (jsNumOr req.limit 50) user with e | locations <;>
    rw [hl] at hi <;> dsimp only at hi
  · simp at hi
  rcases hr : env.redact (buildContext members locations req) with e | rc <;>
    rw [hr] at hi <;> dsimp only at hi
  · simp at hi
  rcases ha : env.llmAnalyze sq rc with e | llm <;>
    rw [ha] at hi <;> dsimp only at hi
  · simp at hi
  rcases hg : env.groundingCheck rc llm.summary with e | g <;>
    rw [hg] at hi <;> dsimp only at hi
  · simp at hi
  rcases hp : env.postProcess llm user.userId with e | post <;>
    rw [hp] at hi <;> dsimp only at hi
  · simp at hi
  injection hi with h
  rw [← h]

theorem analyzeAllowed_calls (env : AgentEnv) (req : AnalyzeRequest)
    (user : AuthenticatedUser) (sq : String) :
    ∀ c ∈ (analyzeAllowed env req user sq).2,
      c.1 = sq ∧
      ∃ members locations,
        env.membershipSearch (jsNumOr req.limit 100) user = Except.ok members ∧
        env.locationsSearch (jsNumOr req.limit 50) user = Except.ok locations ∧
        env.redact (buildContext members locations req) = Except.ok c.2 := by
  intro c hc
  unfold analyzeAllowed at hc
  rcases hm : env.membershipSearch (jsNumOr req.limit 100) user with e | members <;>
    rw [hm] at hc <;> dsimp only at hc
  · simp at hc
  rcases hl : env.locationsSearch (jsNumOr req.limit 50) user with e | locations <;>
    rw [hl] at hc <;> dsimp only at hc
  · simp at hc
  rcases hr : env.redact (buildContext members locations req) with e | rc <;>
    rw [hr] at hc <;> dsimp only at hc
  · simp at hc
  have hcc : c = (sq, rc) := by
    rcases ha : env.llmAnalyze sq rc with e | llm <;>
      rw [ha] at hc <;> dsimp only at hc
    · simpa using hc
    rcases hg : env.groundingCheck rc llm.summary with e | g <;>
      rw [hg] at hc <;> dsimp only at hc
    · simpa using hc
    rcases hp : env.postProcess llm user.userId with e | post <;>
      rw [hp] at hc <;> dsimp only at hc
    · simpa using hc
    simpa using hc
  subst hcc
  refine ⟨rfl, members, locations, ?_, ?_, ?_⟩ <;> simp_all

theorem analyze_trace (env : AgentEnv) (req : AnalyzeRequest)
    (user : AuthenticatedUser) :
    (analyze env req user).2 = [] ∨
    (analyze env req user).2 =
      (analyzeAllowed env req user
        ((env.preProcess req.question user.userId).sanitizedQuestion.getD "")).2 := by
  cases hp : (env.preProcess req.question user.userId).allowed
  · left
    simp [analyze, hp]
  · rcases hA : analyzeAllowed env req user
        ((env.preProcess req.question user.userId).sanitizedQuestion.getD "") with ⟨res, calls⟩
    right
    cases res <;> simp [analyze, hp, hA]

/-! ### Theorems about `AgentService.analyze` -/

/-- C1: the remote model provider is invoked only after the guardrails
`preProcess` allowed the request; on any run where `preProcess` returns
`allowed == false` the provider is never called (the call trace is empty). -/
theorem agent_model_call_gated (env : AgentEnv) (req : AnalyzeRequest)
    (user : AuthenticatedUser) :
    ((env.preProcess req.question user.userId).allowed = false →
      (analyze env req user).2 = []) ∧
    ((analyze env req user).2 ≠ [] →
      (env.preProcess req.question user.userId).allowed = true) := by
  constructor
  · intro h
    simp [analyze, h]
  · intro h
    cases hp : (env.preProcess req.question user.userId).allowed with
    | true => rfl
    | false =>
      exact absurd (by simp [analyze, hp]) h

/-- C5: when guardrails reject the question, `analyze` throws a generic
error carrying the rejection reason (`throw new Error(preResult.error)`),
rather than returning an `Insight`. -/
theorem agent_rejection_generic_error (env : AgentEnv) (req : AnalyzeRequest)
    (user : AuthenticatedUser)
    (h : (env.preProcess req.question user.userId).allowed = false) :
    (analyze env req user).1 =
      Except.error (env.preProcess req.question user.userId).error := by
  simp [analyze, h]

/-- C4: any error thrown inside the `try` block after guardrails allowed the
request (context fetch, redaction, the model call, grounding, or
post-processing) is not propagated: `analyze` returns a fallback `Insight`
whose summary, confidence and reasoning come from
`guardrails.handleError(error, userId)` and whose data points are zero. -/
theorem agent_error_fallback (env : AgentEnv) (req : AnalyzeRequest)
    (user : AuthenticatedUser) (e : String)
    (h1 : (env.preProcess req.question user.userId).allowed = true)
    (h2 : (analyzeAllowed env req user
        ((env.preProcess req.question user.userId).sanitizedQuestion.getD "")).1 =
      Except.error e) :
    (analyze env req user).1 = Except.ok
      { question := req.question
        summary := (env.handleError e user.userId).summary
        confidence := (env.handleError e user.userId).confidence
        reasoning := (env.handleError e user.userId).reasoning
        dataPoints := { membersAnalyzed := 0, locationsAnalyzed := 0 }
        generatedAt := env.now
        provider := env.providerName } := by
  rcases hA : analyzeAllowed env req user
      ((env.preProcess req.question user.userId).sanitizedQuestion.getD "") with ⟨res, calls⟩
  rw [hA] at h2
  simp only at h2
  subst h2
  simp [analyze, h1, hA]

/-- The `try`-block body never depends on the value of a returned grounding
verdict: the step only branches on whether `grounding.check` threw. -/
theorem analyzeAllowed_grounding_irrelevant (env : AgentEnv) (req : AnalyzeRequest)
    (user : AuthenticatedUser) (sq : String)
    (g1 g2 : String → String → GroundingResult) :
    analyzeAllowed { env with groundingCheck := fun c s => Except.ok (g1 c s) } req user sq =
    analyzeAllowed { env with groundingCheck := fun c s => Except.ok (g2 c s) } req user sq := by
  unfold analyzeAllowed
  dsimp only

/-- C6: the `Insight` returned to the caller does not depend on the grounding
verdict — two runs of `analyze` identical except for the `GroundingResult`
(grounded or not, any score, any reason) return the same result and make the
same provider calls; the grounding check only logs and counts. -/
theorem grounding_advisory (env : AgentEnv) (req : AnalyzeRequest)
    (user : AuthenticatedUser) (g1 g2 : String → String → GroundingResult) :
    analyze { env with groundingCheck := fun c s => Except.ok (g1 c s) } req user =
    analyze { env with groundingCheck := fun c s => Except.ok (g2 c s) } req user := by
  have h := analyzeAllowed_grounding_irrelevant env req user
    ((env.preProcess req.question user.userId).sanitizedQuestion.getD "") g1 g2
  unfold analyze
  dsimp only
  rw [h]

/-- C7: on the successful path, the returned `Insight` has a confidence in
{high, medium, low} and its data points are exactly the lengths of the two
search results. -/
theorem agent_success_insight (env : AgentEnv) (req : AnalyzeRequest)
    (user : AuthenticatedUser) (members : List Member) (locations : List Location)
    (redactedContext : String) (llmResult : LLMAnalysisResult)
    (g : GroundingResult) (post : PostProcessResult) (r : LLMAnalysisResult)
    (h1 : (env.preProcess req.question user.userId).allowed = true)
    (h2 : env.membershipSearch (jsNumOr req.limit 100) user = Except.ok members)
    (h3 : env.locationsSearch (jsNumOr req.limit 50) user = Except.ok locations)
    (h4 : env.redact (buildContext members locations req) = Except.ok redactedContext)
    (h5 : env.llmAnalyze ((env.preProcess req.question user.userId).sanitizedQuestion.getD "")
        redactedContext = Except.ok llmResult)
    (h6 : env.groundingCheck redactedContext llmResult.summary = Except.ok g)
    (h7 : env.postProcess llmResult user.userId = Except.ok post)
    (h8 : post.response = some r) :
    (analyze env req user).1 = Except.ok
      { question := req.question
        summary := r.summary
        confidence := r.confidence
        reasoning := r.reasoning
        dataPoints :=
          { membersAnalyzed := members.length
            locationsAnalyzed := locations.length }
        generatedAt := env.now
        provider := env.providerName } ∧
    (r.confidence = Confidence.high ∨ r.confidence = Confidence.medium ∨
      r.confidence = Confidence.low) := by
  constructor
  · simp [analyze, analyzeAllowed, h1, h2, h3, h4, h5, h6, h7, h8]
  · cases hc : r.confidence <;> simp

/-- C9: for every allowed request, the `question` of any returned `Insight`
is the raw `request.question` (success and error path alike), while the
model provider is invoked with the sanitized question from `preProcess`. -/
theorem agent_raw_question_sanitized_model (env : AgentEnv) (req : AnalyzeRequest)
    (user : AuthenticatedUser) (s : String)
    (h1 : (env.preProcess req.question user.userId).allowed = true)
    (h2 : (env.preProcess req.question user.userId).sanitizedQuestion = some s) :
    (∀ i, (analyze env req user).1 = Except.ok i → i.question = req.question) ∧
    (∀ c ∈ (analyze env req user).2, c.1 = s) := by
  have hs : (env.preProcess req.question user.userId).sanitizedQuestion.getD "" = s := by
    rw [h2]; rfl
  constructor
  · intro i hi
    rcases hA : analyzeAllowed env req user
        ((env.preProcess req.question user.userId).sanitizedQuestion.getD "") with ⟨res, calls⟩
    cases res with
    | ok i0 =>
      have hq := analyzeAllowed_ok_question env req user
        ((env.preProcess req.question user.userId).sanitizedQuestion.getD "") i0
        (by rw [hA])
      simp [analyze, h1, hA] at hi
      rw [← hi]
      exact hq
    | error e =>
      simp [analyze, h1, hA] at hi
      rw [← hi]
  · intro c hc
    rcases analyze_trace env req user with h | h
    · rw [h] at hc
      simp at hc
    · rw [h] at hc
      rw [← hs]
      exact (analyzeAllowed_calls env req user
        ((env.preProcess req.question user.userId).sanitizedQuestion.getD "") c hc).1

/-- C10: on every invocation of the model provider by `analyze`, the context
argument is exactly the redaction service applied to the context built from
the two search results: `redact(buildContext(members, locations, request))`. -/
theorem agent_context_always_redacted (env : AgentEnv) (req : AnalyzeRequest)
    (user : AuthenticatedUser) :
    ∀ c ∈ (analyze env req user).2,
      ∃ members locations,
        env.membershipSearch (jsNumOr req.limit 100) user = Except.ok members ∧
        env.locationsSearch (jsNumOr req.limit 50) user = Except.ok locations ∧
        env.redact (buildContext members locations req) = Except.ok c.2 := by
  intro c hc
  rcases analyze_trace env req user with h | h
  · rw [h] at hc
    simp at hc
  · rw [h] at hc
    exact (analyzeAllowed_calls env req user
      ((env.preProcess req.question user.userId).sanitizedQuestion.getD "") c hc).2

/-! ### Concrete sample collaborators for the witnesses -/

/-- A sample membership record. -/
def sampleMember : Member := { status_notes := some "active good standing", json := "m1" }

/-- A sample location record. -/
def sampleLocation : Location := { region := some "West", json := "l1" }

/-- A concrete collaborator environment on which `analyze` completes the
happy path: guardrails reject exactly the question "bad question" and
otherwise sanitize by appending " sanitized". -/
def sampleEnv : AgentEnv :=
  { preProcess := fun q _ =>
      if q = "bad question" then
        { allowed := false, sanitizedQuestion := none, error := some "Blocked by guardrails" }
      else
        { allowed := true, sanitizedQuestion := some (q ++ " sanitized"), error := none }
    membershipSearch := fun _ _ => Except.ok [sampleMember]
    locationsSearch := fun _ _ => Except.ok [sampleLocation]
    redact := fun s => Except.ok ("[REDACTED] " ++ s)
    llmAnalyze := fun _ _ => Except.ok
      { summary := "A useful summary", confidence := Confidence.high, reasoning := some "because data" }
    groundingCheck := fun _ _ => Except.ok { grounded := true, score := 1, reason := none }
    postProcess := fun r _ => Except.ok { valid := true, response := some r }
    handleError := fun e _ =>
      { summary := "Analysis failed: " ++ e, confidence := Confidence.low, reasoning := some "error fallback" }
    providerName := "gemini"
    now := "2026-01-01T00:00:00Z" }

/-- `sampleEnv` with a failing model provider. -/
def failEnv : AgentEnv := { sampleEnv with llmAnalyze := fun _ _ => Except.error "boom" }

/-- A request guardrails allow. -/
def sampleReq : AnalyzeRequest := { question := "good question", locationId := none, limit := none }

/-- The request guardrails reject in `sampleEnv`. -/
def badReq : AnalyzeRequest := { question := "bad question", locationId := none, limit := none }

/-- A sample caller. -/
def sampleUser : AuthenticatedUser := { userId := "user-1" }

/-- Witness for C5: at the rejected request, `analyze` surfaces the thrown
rejection reason. -/
theorem agent_rejection_generic_error_witness :
    (analyze sampleEnv badReq sampleUser).1 = Except.error (some "Blocked by guardrails") :=
  agent_rejection_generic_error sampleEnv badReq sampleUser rfl

/-- Witness for C4: with a throwing model provider, `analyze` returns the
`handleError` fallback with zero data points. -/
theorem agent_error_fallback_witness :
    (analyze failEnv sampleReq sampleUser).1 = Except.ok
      { question := "good question"
        summary := "Analysis failed: boom"
        confidence := Confidence.low
        reasoning := some "error fallback"
        dataPoints := { membersAnalyzed := 0, locationsAnalyzed := 0 }
        generatedAt := "2026-01-01T00:00:00Z"
        provider := "gemini" } :=
  agent_error_fallback failEnv sampleReq sampleUser "boom" rfl rfl

/-- Witness for C7: the happy path at the sample environment. -/
theorem agent_success_insight_witness :
    (analyze sampleEnv sampleReq sampleUser).1 = Except.ok
      { question := "good question"
        summary := "A useful summary"
        confidence := Confidence.high
        reasoning := some "because data"
        dataPoints := { membersAnalyzed := 1, locationsAnalyzed := 1 }
        generatedAt := "2026-01-01T00:00:00Z"
        provider := "gemini" } ∧
    (Confidence.high = Confidence.high ∨ Confidence.high = Confidence.medium ∨
      Confidence.high = Confidence.low) :=
  agent_success_insight sampleEnv sampleReq sampleUser [sampleMember] [sampleLocation]
    ("[REDACTED] " ++ buildContext [sampleMember] [sampleLocation] sampleReq)
    { summary := "A useful summary", confidence := Confidence.high, reasoning := some "because data" }
    { grounded := true, score := 1, reason := none }
    { valid := true,
      response := some
        { summary := "A useful summary", confidence := Confidence.high, reasoning := some "because data" } }
    { summary := "A useful summary", confidence := Confidence.high, reasoning := some "because data" }
    rfl rfl rfl rfl rfl rfl rfl rfl

/-- Witness for C9: the returned insight keeps the raw question while the
single provider call received the sanitized question. -/
theorem agent_raw_question_sanitized_model_witness :
    (Insight.question
      { question := "good question"
        summary := "A useful summary"
        confidence := Confidence.high
        reasoning := some "because data"
        dataPoints := { membersAnalyzed := 1, locationsAnalyzed := 1 }
        generatedAt := "2026-01-01T00:00:00Z"
        provider := "gemini" } = "good question") ∧
    (("good question sanitized",
      "[REDACTED] " ++ buildContext [sampleMember] [sampleLocation] sampleReq).1 =
      "good question sanitized") := by
  have h := agent_raw_question_sanitized_model sampleEnv sampleReq sampleUser
    "good question sanitized" rfl rfl
  exact ⟨h.1 _ rfl, h.2 _ (List.mem_singleton_self _)⟩

/-- Witness for C10: the single provider call at the sample environment
received exactly the redacted built context. -/
theorem agent_context_always_redacted_witness :
    ∃ members locations,
      sampleEnv.membershipSearch (jsNumOr sampleReq.limit 100) sampleUser = Except.ok members ∧
      sampleEnv.locationsSearch (jsNumOr sampleReq.limit 50) sampleUser = Except.ok locations ∧
      sampleEnv.redact (buildContext members locations sampleReq) =
        Except.ok ("good question sanitized",
          "[REDACTED] " ++ buildContext [sampleMember] [sampleLocation] sampleReq).2 :=
  agent_context_always_redacted sampleEnv sampleReq sampleUser
    ("good question sanitized",
      "[REDACTED] " ++ buildContext [sampleMember] [sampleLocation] sampleReq)
    (List.mem_singleton_self _)

end AgentSpec
